import Mathlib

/-!
# Verification of the `Gun` weapon component (ammo economy and firing state machine)

This file gives a shallow embedding of the ranged-weapon component in `src/Gun.ts`:
the clamped ammo setters, the `canAttack` / `triggerAttack` / `finishFiring` firing
path, burst and auto-fire interval scheduling, `triggerReload`, the ownership
transfer snapshot (`transferOwnership` / `receiveOwnership`), the round-robin
effect-group accessors (`getImpactFX` / `getMissFX`), and the hitscan projectile
visualization arithmetic of `fireWithRaycast`.

JavaScript numbers holding ammo counts and millisecond delays are modelled as `Int`
(all the operations involved -- `Math.min`, `Math.max`, addition, subtraction --
restrict to the integers, and every concrete value in play is integral).
Wall-clock time is modelled as a `Nat` of milliseconds, and the per-weapon timer
callbacks (`setTimeout` / `setInterval` on the component's `async` scheduler) are
modelled by explicit deadline fields plus a `step` function that runs the earliest
pending callback, matching the single-threaded event-loop semantics.
-/

/-- The local notifications the ammo setters emit
(`GunEvents.loadedAmmoChanged` / `GunEvents.reserveAmmoChanged`). -/
inductive GunEvent where
  | loadedAmmoChanged (current previous : Int)
  | reserveAmmoChanged (current previous : Int)
deriving DecidableEq, Repr

/-- The configuration properties of `Gun.propsDefinition` that the ammo and firing
logic reads (damage, ranges, FX handles and input mapping do not affect the state
machine and are omitted). `isVR` stands for
`entity.owner.get().deviceType.get() == PlayerDeviceType.VR`. -/
structure GunProps where
  attackRate : Int := 1000
  ammoPerFire : Int := 1
  clipSize : Int := 10
  maxAmmo : Int := 30
  autoReload : Bool := false
  autoAttack : Bool := false
  bulletBurstPerFire : Int := 1
  bulletBurstDelay : Int := 100
  isVR : Bool := false
deriving DecidableEq, Repr

/-- The mutable state of a `Gun` component instance.  Timer fields hold the
absolute deadline (ms) of the scheduled callback, `none` when not scheduled
(mirroring the `number | undefined` timer-handle fields).  `reloadTimer`'s flag
records which callback was registered: `true` for the auto-reload timeout set in
`finishFiring` (whose callback calls `triggerReload`), `false` for the
reload-in-progress window set in `triggerReload` (whose callback only clears the
handle).  `shotsFired`/`shotTimes` record each execution of `finishFiring`
(the muzzle flash / hit resolution of one shot), and `events` records the emitted
ammo-changed notifications. -/
structure Gun where
  loadedAmmo : Int := 0
  reserveAmmo : Int := 0
  attackCooldown : Bool := false
  attackCooldownTimer : Option Nat := none
  fireDelay : Option Nat := none
  bulletBurstTimer : Option Nat := none
  currentBurstCount : Int := 0
  autoAttackTimer : Option Nat := none
  reloadTimer : Option (Nat × Bool) := none
  impactFX : List (List Nat) := []
  missFX : List (List Nat) := []
  nextImpactFXIdx : Nat := 0
  nextMissFXIdx : Nat := 0
  now : Nat := 0
  shotsFired : Nat := 0
  shotTimes : List Nat := []
  events : List GunEvent := []
deriving DecidableEq, Repr

/-- The `loadedAmmo` setter:
`ammoToGrant = Math.min(Math.max(0, clipSize), value); _loadedAmmo = Math.max(0, ammoToGrant)`,
emitting `loadedAmmoChanged` iff the stored value changed. -/
def setLoadedAmmo (p : GunProps) (value : Int) (g : Gun) : Gun :=
  let ammoToGrant := min (max 0 p.clipSize) value
  let previous := g.loadedAmmo
  let next := max 0 ammoToGrant
  if previous ≠ next then
    { g with loadedAmmo := next,
             events := g.events ++ [GunEvent.loadedAmmoChanged next previous] }
  else
    { g with loadedAmmo := next }

/-- The `reserveAmmo` setter:
`ammoToGrant = Math.min(value, Math.max(0, maxAmmo) - loadedAmmo); _reserveAmmo = Math.max(0, ammoToGrant)`,
emitting `reserveAmmoChanged` iff the stored value changed. -/
def setReserveAmmo (p : GunProps) (value : Int) (g : Gun) : Gun :=
  let ammoToGrant := min value (max 0 p.maxAmmo - g.loadedAmmo)
  let previous := g.reserveAmmo
  let next := max 0 ammoToGrant
  if previous ≠ next then
    { g with reserveAmmo := next,
             events := g.events ++ [GunEvent.reserveAmmoChanged next previous] }
  else
    { g with reserveAmmo := next }

/-- `hasUnlimitedAmmo`: `ammoPerFire <= 0`. -/
def hasUnlimitedAmmo (p : GunProps) : Bool :=
  decide (p.ammoPerFire ≤ 0)

/-- `canAttack()`: blocked while `attackCooldown`; then with
`ammoPerAttack = Math.max(0, ammoPerFire)`, passes when `ammoPerAttack == 0`
(unlimited ammo) and otherwise iff `ammoPerAttack <= loadedAmmo`. -/
def canAttack (p : GunProps) (g : Gun) : Bool :=
  if g.attackCooldown then false
  else
    let ammoPerAttack := max 0 p.ammoPerFire
    if ammoPerAttack = 0 then true
    else if ammoPerAttack > g.loadedAmmo then false
    else true

/-- `resetReload()`: clear the pending reload timeout. -/
def resetReload (g : Gun) : Gun :=
  { g with reloadTimer := none }

/-- `resetBurst()`: zero the burst counter and clear the burst interval. -/
def resetBurst (g : Gun) : Gun :=
  { g with currentBurstCount := 0, bulletBurstTimer := none }

/-- `resetAutoAttack()`: clear the auto-attack interval. -/
def resetAutoAttack (g : Gun) : Gun :=
  { g with autoAttackTimer := none }

/-- `triggerBurst()`: when `bulletBurstPerFire > 1`, no interval is already armed
and a further shot's ammo is available, arm the burst interval at
`bulletBurstDelay` ms and set `currentBurstCount = Math.max(1, bulletBurstPerFire - 1)`. -/
def triggerBurst (p : GunProps) (g : Gun) : Gun :=
  if p.bulletBurstPerFire ≤ 1 then g
  else if g.bulletBurstTimer.isSome then g
  else if g.loadedAmmo < p.ammoPerFire then g
  else
    { g with currentBurstCount := max 1 (p.bulletBurstPerFire - 1),
             bulletBurstTimer := some (g.now + p.bulletBurstDelay.toNat) }

/-- `triggerAutoAttack()`: when `autoAttack` is set and no interval is armed,
arm the auto-attack interval at `attackRate` ms. -/
def triggerAutoAttack (p : GunProps) (g : Gun) : Gun :=
  if ¬ p.autoAttack then g
  else if g.autoAttackTimer.isSome then g
  else { g with autoAttackTimer := some (g.now + p.attackRate.toNat) }

/-- `finishFiring()`: clear `fireDelay`, play the shot effects (recorded in
`shotsFired`/`shotTimes`), re-arm the cooldown timeout at
`Math.max(10, attackRate)` ms, then either cancel burst/auto-fire (ammo for the
next shot missing) or arm them, and finally schedule the 500 ms auto-reload
timeout when `autoReload` is set and the clip is empty. -/
def finishFiring (p : GunProps) (g : Gun) : Gun :=
  let g1 := { g with fireDelay := none,
                     shotsFired := g.shotsFired + 1,
                     shotTimes := g.shotTimes ++ [g.now] }
  let g2 := { g1 with attackCooldownTimer := some (g1.now + (max 10 p.attackRate).toNat) }
  let g3 :=
    if g2.loadedAmmo < p.ammoPerFire then resetAutoAttack (resetBurst g2)
    else triggerAutoAttack p (triggerBurst p g2)
  if p.autoReload = true ∧ g3.loadedAmmo = 0 then
    { g3 with reloadTimer := some (g3.now + 500, true) }
  else g3

/-- `triggerAttack()`: rejected by `canAttack` it cancels burst/auto-fire (and
plays the out-of-ammo cue); ignored while the fire-confirmation delay is pending;
otherwise it enters cooldown, deducts `ammoPerFire` when positive, and either
finishes the shot immediately (mid-burst or VR) or schedules `finishFiring` after
the 50 ms wind-up delay. -/
def triggerAttack (p : GunProps) (g : Gun) : Gun :=
  if canAttack p g = false then
    resetAutoAttack (resetBurst g)
  else if g.fireDelay.isSome then g
  else
    let g1 := { g with attackCooldown := true }
    let g2 := if 0 < p.ammoPerFire then setLoadedAmmo p (g1.loadedAmmo - p.ammoPerFire) g1 else g1
    if 0 < g2.currentBurstCount then finishFiring p g2
    else if p.isVR then finishFiring p g2
    else { g2 with fireDelay := some (g2.now + 50) }

/-- `triggerReload()`: a no-op while a reload timer is pending or with unlimited
ammo; computes `reloadAmount = Math.min(clipSize - loadedAmmo, reserveAmmo)` and
gives up when it is `0` or below `ammoPerFire`; otherwise cancels burst/auto-fire,
opens the 1000 ms reload-in-progress window, and moves `reloadAmount` from reserve
to loaded (through the clamped setters, loaded first). -/
def triggerReload (p : GunProps) (g : Gun) : Gun :=
  if g.reloadTimer.isSome then g
  else if hasUnlimitedAmmo p then g
  else
    let reloadAmount := min (p.clipSize - g.loadedAmmo) g.reserveAmmo
    if reloadAmount = 0 then g
    else if reloadAmount < p.ammoPerFire then g
    else
      let g1 := resetAutoAttack (resetBurst g)
      let g2 := { g1 with reloadTimer := some (g1.now + 1000, false) }
      let g3 := setLoadedAmmo p (g2.loadedAmmo + reloadAmount) g2
      setReserveAmmo p (g3.reserveAmmo - reloadAmount) g3

/-- The snapshot type `GunState` returned by `transferOwnership`. -/
structure GunState where
  loadedAmmo : Int
  reserveAmmo : Int
  impactFX : List (List Nat)
  missFX : List (List Nat)
deriving DecidableEq, Repr

/-- `transferOwnership(old, new)`: stop the pooled FX, hand the spawner to the new
owner, and return the snapshot `{loadedAmmo, reserveAmmo, impactFX, missFX}`. -/
def transferOwnership (g : Gun) : GunState :=
  { loadedAmmo := g.loadedAmmo,
    reserveAmmo := g.reserveAmmo,
    impactFX := g.impactFX,
    missFX := g.missFX }

/-- `receiveOwnership(state, from, to)`: when a snapshot is present, install its
ammo counts through the `loadedAmmo` / `reserveAmmo` setters (loaded first) and
its FX groups directly. -/
def receiveOwnership (p : GunProps) (state : Option GunState) (g : Gun) : Gun :=
  match state with
  | none => g
  | some s =>
    let g1 := setLoadedAmmo p s.loadedAmmo g
    let g2 := setReserveAmmo p s.reserveAmmo g1
    { g2 with impactFX := s.impactFX, missFX := s.missFX }

/-- `getImpactFX()`: `[]` when no impact groups exist; otherwise return the group
at `nextImpactFXIdx % impactFX.length` (stopping its handles) and store that index
plus one. -/
def getImpactFX (g : Gun) : List Nat × Gun :=
  if g.impactFX.length = 0 then ([], g)
  else
    let index := g.nextImpactFXIdx % g.impactFX.length
    (g.impactFX.getD index [], { g with nextImpactFXIdx := index + 1 })

/-- `getMissFX()`: `[]` when no miss groups exist; otherwise return the group at
`nextMissFXIdx % missFX.length` (stopping its handles) and store that index plus
one. -/
def getMissFX (g : Gun) : List Nat × Gun :=
  if g.missFX.length = 0 then ([], g)
  else
    let index := g.nextMissFXIdx % g.missFX.length
    (g.missFX.getD index [], { g with nextMissFXIdx := index + 1 })

/-- The minimum of two optional deadlines (absent timers impose no deadline). -/
def optMin : Option Nat → Option Nat → Option Nat
  | none, b => b
  | some a, none => some a
  | some a, some b => some (min a b)

/-- The earliest pending timer deadline of the weapon's scheduled callbacks. -/
def nextDeadline (g : Gun) : Option Nat :=
  optMin g.fireDelay (optMin g.bulletBurstTimer (optMin g.autoAttackTimer
    (optMin g.attackCooldownTimer (g.reloadTimer.map Prod.fst))))

/-- The body of the burst interval callback armed by `triggerBurst`: when
`currentBurstCount == 0` cancel the burst, otherwise clear the cooldown flag,
re-run `triggerAttack`, and decrement the counter. -/
def burstTick (p : GunProps) (g : Gun) : Gun :=
  if g.currentBurstCount = 0 then resetBurst g
  else
    let g1 := { g with attackCooldown := false }
    let g2 := triggerAttack p g1
    { g2 with currentBurstCount := g2.currentBurstCount - 1 }

/-- The body of the auto-attack interval callback armed by `triggerAutoAttack`:
clear the cooldown flag and re-run `triggerAttack`. -/
def autoTick (p : GunProps) (g : Gun) : Gun :=
  triggerAttack p { g with attackCooldown := false }

/-- One step of the weapon's event loop: run the callback of the earliest pending
timer at its deadline (quiescent states are fixed points).  `fireDelay` runs
`finishFiring`; the burst and auto-fire intervals run their tick bodies and, when
the interval survived its own callback, re-arm at their period; the cooldown
timeout clears `attackCooldown`; the reload timeout either runs `triggerReload`
(auto-reload) or merely closes the reload-in-progress window. -/
def step (p : GunProps) (g : Gun) : Gun :=
  match nextDeadline g with
  | none => g
  | some d =>
    if g.fireDelay = some d then
      finishFiring p { g with now := d, fireDelay := none }
    else if g.bulletBurstTimer = some d then
      let g1 := burstTick p { g with now := d }
      match g1.bulletBurstTimer with
      | some _ => { g1 with bulletBurstTimer := some (d + p.bulletBurstDelay.toNat) }
      | none => g1
    else if g.autoAttackTimer = some d then
      let g1 := autoTick p { g with now := d }
      match g1.autoAttackTimer with
      | some _ => { g1 with autoAttackTimer := some (d + p.attackRate.toNat) }
      | none => g1
    else if g.attackCooldownTimer = some d then
      { g with now := d, attackCooldown := false, attackCooldownTimer := none }
    else
      match g.reloadTimer with
      | some (_, callsReload) =>
        let g1 := { g with now := d, reloadTimer := none }
        if callsReload then triggerReload p g1 else g1
      | none => g

/-- Iterate the event loop `n` steps with no further player input. -/
def run (p : GunProps) (g : Gun) : Nat → Gun
  | 0 => g
  | n + 1 => step p (run p g n)

/-- A sequence of `n` immediate `triggerAttack` calls (the repeated consume path). -/
def attackSeq (p : GunProps) (g : Gun) : Nat → Gun
  | 0 => g
  | n + 1 => triggerAttack p (attackSeq p g n)

/-- `clamp(v, lo, hi)` as used throughout the ammo setters: `max lo (min v hi)`. -/
def clamp (v lo hi : Int) : Int := max lo (min v hi)

/-- The hitscan-with-launcher visualization branch of `fireWithRaycast` (the
`else` branch taken when a projectile launcher is also configured).  `dist` is the
computed magnitude `|hitPos - launcher.position|`; the code pads it by `4` on a
hit, divides by `projectileSpeed`, and launches immediately when the sampled spray
angle is (approximately) zero, otherwise sets the launcher's local rotation from
the spray angles and launches after a one-frame `setTimeout`. -/
structure RaycastVisualization where
  rotationSet : Bool
  delayedLaunch : Bool
  duration : ℚ
deriving DecidableEq, Repr

/-- The launch parameters computed by `fireWithRaycast` for the visualization
projectile, as a function of whether the trace hit, the launcher-to-hit-point
distance, whether the sampled spray angle is zero, and `projectileSpeed`. -/
def visualizeHitscanProjectile (hit : Bool) (dist : ℚ) (sprayIsZero : Bool)
    (projectileSpeed : ℚ) : RaycastVisualization :=
  let distance := if hit then dist + 4 else dist
  let duration := distance / projectileSpeed
  if sprayIsZero then
    { rotationSet := false, delayedLaunch := false, duration := duration }
  else
    { rotationSet := true, delayedLaunch := true, duration := duration }


/-! ## Projection lemmas for the ammo setters and firing helpers -/

@[simp] lemma setLoadedAmmo_loadedAmmo (p : GunProps) (v : Int) (g : Gun) :
    (setLoadedAmmo p v g).loadedAmmo = max 0 (min (max 0 p.clipSize) v) := by
  simp only [setLoadedAmmo]; split <;> rfl

@[simp] lemma setLoadedAmmo_reserveAmmo (p : GunProps) (v : Int) (g : Gun) :
    (setLoadedAmmo p v g).reserveAmmo = g.reserveAmmo := by
  simp only [setLoadedAmmo]; split <;> rfl

@[simp] lemma setLoadedAmmo_attackCooldown (p : GunProps) (v : Int) (g : Gun) :
    (setLoadedAmmo p v g).attackCooldown = g.attackCooldown := by
  simp only [setLoadedAmmo]; split <;> rfl

@[simp] lemma setLoadedAmmo_fireDelay (p : GunProps) (v : Int) (g : Gun) :
    (setLoadedAmmo p v g).fireDelay = g.fireDelay := by
  simp only [setLoadedAmmo]; split <;> rfl

@[simp] lemma setLoadedAmmo_currentBurstCount (p : GunProps) (v : Int) (g : Gun) :
    (setLoadedAmmo p v g).currentBurstCount = g.currentBurstCount := by
  simp only [setLoadedAmmo]; split <;> rfl

@[simp] lemma setLoadedAmmo_bulletBurstTimer (p : GunProps) (v : Int) (g : Gun) :
    (setLoadedAmmo p v g).bulletBurstTimer = g.bulletBurstTimer := by
  simp only [setLoadedAmmo]; split <;> rfl

@[simp] lemma setLoadedAmmo_autoAttackTimer (p : GunProps) (v : Int) (g : Gun) :
    (setLoadedAmmo p v g).autoAttackTimer = g.autoAttackTimer := by
  simp only [setLoadedAmmo]; split <;> rfl

@[simp] lemma setLoadedAmmo_attackCooldownTimer (p : GunProps) (v : Int) (g : Gun) :
    (setLoadedAmmo p v g).attackCooldownTimer = g.attackCooldownTimer := by
  simp only [setLoadedAmmo]; split <;> rfl

@[simp] lemma setLoadedAmmo_reloadTimer (p : GunProps) (v : Int) (g : Gun) :
    (setLoadedAmmo p v g).reloadTimer = g.reloadTimer := by
  simp only [setLoadedAmmo]; split <;> rfl

@[simp] lemma setLoadedAmmo_now (p : GunProps) (v : Int) (g : Gun) :
    (setLoadedAmmo p v g).now = g.now := by
  simp only [setLoadedAmmo]; split <;> rfl

@[simp] lemma setLoadedAmmo_shotsFired (p : GunProps) (v : Int) (g : Gun) :
    (setLoadedAmmo p v g).shotsFired = g.shotsFired := by
  simp only [setLoadedAmmo]; split <;> rfl

@[simp] lemma setLoadedAmmo_shotTimes (p : GunProps) (v : Int) (g : Gun) :
    (setLoadedAmmo p v g).shotTimes = g.shotTimes := by
  simp only [setLoadedAmmo]; split <;> rfl

@[simp] lemma setLoadedAmmo_impactFX (p : GunProps) (v : Int) (g : Gun) :
    (setLoadedAmmo p v g).impactFX = g.impactFX := by
  simp only [setLoadedAmmo]; split <;> rfl

@[simp] lemma setLoadedAmmo_missFX (p : GunProps) (v : Int) (g : Gun) :
    (setLoadedAmmo p v g).missFX = g.missFX := by
  simp only [setLoadedAmmo]; split <;> rfl

@[simp] lemma setReserveAmmo_reserveAmmo (p : GunProps) (v : Int) (g : Gun) :
    (setReserveAmmo p v g).reserveAmmo = max 0 (min v (max 0 p.maxAmmo - g.loadedAmmo)) := by
  simp only [setReserveAmmo]; split <;> rfl

@[simp] lemma setReserveAmmo_loadedAmmo (p : GunProps) (v : Int) (g : Gun) :
    (setReserveAmmo p v g).loadedAmmo = g.loadedAmmo := by
  simp only [setReserveAmmo]; split <;> rfl

@[simp] lemma setReserveAmmo_attackCooldown (p : GunProps) (v : Int) (g : Gun) :
    (setReserveAmmo p v g).attackCooldown = g.attackCooldown := by
  simp only [setReserveAmmo]; split <;> rfl

@[simp] lemma setReserveAmmo_fireDelay (p : GunProps) (v : Int) (g : Gun) :
    (setReserveAmmo p v g).fireDelay = g.fireDelay := by
  simp only [setReserveAmmo]; split <;> rfl

@[simp] lemma setReserveAmmo_currentBurstCount (p : GunProps) (v : Int) (g : Gun) :
    (setReserveAmmo p v g).currentBurstCount = g.currentBurstCount := by
  simp only [setReserveAmmo]; split <;> rfl

@[simp] lemma setReserveAmmo_bulletBurstTimer (p : GunProps) (v : Int) (g : Gun) :
    (setReserveAmmo p v g).bulletBurstTimer = g.bulletBurstTimer := by
  simp only [setReserveAmmo]; split <;> rfl

@[simp] lemma setReserveAmmo_autoAttackTimer (p : GunProps) (v : Int) (g : Gun) :
    (setReserveAmmo p v g).autoAttackTimer = g.autoAttackTimer := by
  simp only [setReserveAmmo]; split <;> rfl

@[simp] lemma setReserveAmmo_attackCooldownTimer (p : GunProps) (v : Int) (g : Gun) :
    (setReserveAmmo p v g).attackCooldownTimer = g.attackCooldownTimer := by
  simp only [setReserveAmmo]; split <;> rfl

@[simp] lemma setReserveAmmo_reloadTimer (p : GunProps) (v : Int) (g : Gun) :
    (setReserveAmmo p v g).reloadTimer = g.reloadTimer := by
  simp only [setReserveAmmo]; split <;> rfl

@[simp] lemma setReserveAmmo_now (p : GunProps) (v : Int) (g : Gun) :
    (setReserveAmmo p v g).now = g.now := by
  simp only [setReserveAmmo]; split <;> rfl

@[simp] lemma setReserveAmmo_shotsFired (p : GunProps) (v : Int) (g : Gun) :
    (setReserveAmmo p v g).shotsFired = g.shotsFired := by
  simp only [setReserveAmmo]; split <;> rfl

@[simp] lemma setReserveAmmo_shotTimes (p : GunProps) (v : Int) (g : Gun) :
    (setReserveAmmo p v g).shotTimes = g.shotTimes := by
  simp only [setReserveAmmo]; split <;> rfl

@[simp] lemma setReserveAmmo_impactFX (p : GunProps) (v : Int) (g : Gun) :
    (setReserveAmmo p v g).impactFX = g.impactFX := by
  simp only [setReserveAmmo]; split <;> rfl

@[simp] lemma setReserveAmmo_missFX (p : GunProps) (v : Int) (g : Gun) :
    (setReserveAmmo p v g).missFX = g.missFX := by
  simp only [setReserveAmmo]; split <;> rfl

lemma finishFiring_loadedAmmo (p : GunProps) (g : Gun) :
    (finishFiring p g).loadedAmmo = g.loadedAmmo := by
  simp only [finishFiring, triggerBurst, triggerAutoAttack, resetBurst, resetAutoAttack]
  split_ifs <;> rfl

lemma finishFiring_reserveAmmo (p : GunProps) (g : Gun) :
    (finishFiring p g).reserveAmmo = g.reserveAmmo := by
  simp only [finishFiring, triggerBurst, triggerAutoAttack, resetBurst, resetAutoAttack]
  split_ifs <;> rfl

lemma finishFiring_shotsFired (p : GunProps) (g : Gun) :
    (finishFiring p g).shotsFired = g.shotsFired + 1 := by
  simp only [finishFiring, triggerBurst, triggerAutoAttack, resetBurst, resetAutoAttack]
  split_ifs <;> rfl

/-! ## C2: the setters clamp -/

/-- **C2.** For every number `v`, on a weapon with `clipSize >= 0` and
`maxAmmo >= 0`, the `loadedAmmo` setter stores `clamp(v, 0, clipSize)` and the
`reserveAmmo` setter stores `clamp(v, 0, maxAmmo - loadedAmmo)`. -/
theorem C2_setters_clamp (p : GunProps) (g : Gun) (v : Int)
    (hc : 0 ≤ p.clipSize) (hm : 0 ≤ p.maxAmmo) :
    (setLoadedAmmo p v g).loadedAmmo = clamp v 0 p.clipSize ∧
    (setReserveAmmo p v g).reserveAmmo = clamp v 0 (p.maxAmmo - g.loadedAmmo) := by
  rw [setLoadedAmmo_loadedAmmo, setReserveAmmo_reserveAmmo]
  unfold clamp
  omega

/-- Witness for `C2_setters_clamp` at `clipSize = 10`, `maxAmmo = 30`,
`loadedAmmo = 5`, `v = 42`. -/
theorem C2_setters_clamp_witness :
    ((0 : Int) ≤ GunProps.clipSize {} ∧ (0 : Int) ≤ GunProps.maxAmmo {}) ∧
    ((setLoadedAmmo {} 42 { loadedAmmo := 5 }).loadedAmmo = clamp 42 0 (GunProps.clipSize {}) ∧
     (setReserveAmmo {} 42 { loadedAmmo := 5 }).reserveAmmo
        = clamp 42 0 (GunProps.maxAmmo {} - Gun.loadedAmmo { loadedAmmo := 5 })) :=
  ⟨by decide, C2_setters_clamp {} { loadedAmmo := 5 } 42 (by decide) (by decide)⟩

/-! ## C3: ownership transfer round-trip -/

/-- **C3.** Under the ammo invariants (`0 <= loadedAmmo <= clipSize`,
`0 <= reserveAmmo <= maxAmmo - loadedAmmo`), `transferOwnership` followed by
`receiveOwnership` on the snapshot it returned reproduces the same `loadedAmmo`,
`reserveAmmo`, and impact- and miss-effect-group membership, on any receiving
instance `gRecv` with the same props. -/
theorem C3_transfer_roundtrip (p : GunProps) (g gRecv : Gun)
    (h1 : 0 ≤ g.loadedAmmo) (h2 : g.loadedAmmo ≤ p.clipSize)
    (h3 : 0 ≤ g.reserveAmmo) (h4 : g.reserveAmmo ≤ p.maxAmmo - g.loadedAmmo) :
    (receiveOwnership p (some (transferOwnership g)) gRecv).loadedAmmo = g.loadedAmmo ∧
    (receiveOwnership p (some (transferOwnership g)) gRecv).reserveAmmo = g.reserveAmmo ∧
    (receiveOwnership p (some (transferOwnership g)) gRecv).impactFX = g.impactFX ∧
    (receiveOwnership p (some (transferOwnership g)) gRecv).missFX = g.missFX := by
  refine ⟨?_, ?_, ?_, ?_⟩
  all_goals simp [receiveOwnership, transferOwnership]
  all_goals omega

/-- Witness for `C3_transfer_roundtrip` at defaults, `loadedAmmo = 7`,
`reserveAmmo = 20`, one impact group, receiving instance in its spawn state. -/
theorem C3_transfer_roundtrip_witness :
    ((0 : Int) ≤ Gun.loadedAmmo { loadedAmmo := 7, reserveAmmo := 20, impactFX := [[1, 2]] } ∧
     Gun.loadedAmmo { loadedAmmo := 7, reserveAmmo := 20, impactFX := [[1, 2]] } ≤ GunProps.clipSize {} ∧
     (0 : Int) ≤ Gun.reserveAmmo { loadedAmmo := 7, reserveAmmo := 20, impactFX := [[1, 2]] } ∧
     Gun.reserveAmmo { loadedAmmo := 7, reserveAmmo := 20, impactFX := [[1, 2]] }
       ≤ GunProps.maxAmmo {} - Gun.loadedAmmo { loadedAmmo := 7, reserveAmmo := 20, impactFX := [[1, 2]] }) ∧
    ((receiveOwnership {} (some (transferOwnership { loadedAmmo := 7, reserveAmmo := 20, impactFX := [[1, 2]] }))
        { loadedAmmo := 10, reserveAmmo := 20 }).loadedAmmo
       = Gun.loadedAmmo { loadedAmmo := 7, reserveAmmo := 20, impactFX := [[1, 2]] } ∧
     (receiveOwnership {} (some (transferOwnership { loadedAmmo := 7, reserveAmmo := 20, impactFX := [[1, 2]] }))
        { loadedAmmo := 10, reserveAmmo := 20 }).reserveAmmo
       = Gun.reserveAmmo { loadedAmmo := 7, reserveAmmo := 20, impactFX := [[1, 2]] } ∧
     (receiveOwnership {} (some (transferOwnership { loadedAmmo := 7, reserveAmmo := 20, impactFX := [[1, 2]] }))
        { loadedAmmo := 10, reserveAmmo := 20 }).impactFX
       = Gun.impactFX { loadedAmmo := 7, reserveAmmo := 20, impactFX := [[1, 2]] } ∧
     (receiveOwnership {} (some (transferOwnership { loadedAmmo := 7, reserveAmmo := 20, impactFX := [[1, 2]] }))
        { loadedAmmo := 10, reserveAmmo := 20 }).missFX
       = Gun.missFX { loadedAmmo := 7, reserveAmmo := 20, impactFX := [[1, 2]] }) :=
  ⟨by decide,
   C3_transfer_roundtrip {} { loadedAmmo := 7, reserveAmmo := 20, impactFX := [[1, 2]] }
     { loadedAmmo := 10, reserveAmmo := 20 } (by decide) (by decide) (by decide) (by decide)⟩

/-! ## C4: triggerReload transfer arithmetic and conservation -/

/-- **C4.** With no reload window pending and ammo not unlimited, `triggerReload`
computes `transfer = min(clipSize - loadedAmmo, reserveAmmo)`; it is a no-op when
`transfer = 0` or `transfer < ammoPerFire`, and otherwise adds `transfer` to
`loadedAmmo` and subtracts it from `reserveAmmo`; in every case, under the ammo
invariants, `loadedAmmo + reserveAmmo` is unchanged. -/
theorem C4_reload_transfer (p : GunProps) (g : Gun)
    (hrt : g.reloadTimer = none) (hU : 0 < p.ammoPerFire)
    (h1 : 0 ≤ g.loadedAmmo) (h2 : g.loadedAmmo ≤ p.clipSize)
    (h3 : 0 ≤ g.reserveAmmo) (h4 : g.reserveAmmo ≤ p.maxAmmo - g.loadedAmmo) :
    (min (p.clipSize - g.loadedAmmo) g.reserveAmmo = 0 ∨
       min (p.clipSize - g.loadedAmmo) g.reserveAmmo < p.ammoPerFire →
     triggerReload p g = g) ∧
    (p.ammoPerFire ≤ min (p.clipSize - g.loadedAmmo) g.reserveAmmo →
     (triggerReload p g).loadedAmmo
        = g.loadedAmmo + min (p.clipSize - g.loadedAmmo) g.reserveAmmo ∧
     (triggerReload p g).reserveAmmo
        = g.reserveAmmo - min (p.clipSize - g.loadedAmmo) g.reserveAmmo) ∧
    (triggerReload p g).loadedAmmo + (triggerReload p g).reserveAmmo
      = g.loadedAmmo + g.reserveAmmo := by
  have hu : hasUnlimitedAmmo p = false := by
    simp [hasUnlimitedAmmo]; omega
  have hsome : g.reloadTimer.isSome = false := by rw [hrt]; rfl
  refine ⟨?_, ?_, ?_⟩
  · intro hno
    simp only [triggerReload, hsome, hu, Bool.false_eq_true, if_false]
    rcases hno with hz | hlt
    · rw [if_pos hz]
    · by_cases hz : min (p.clipSize - g.loadedAmmo) g.reserveAmmo = 0
      · rw [if_pos hz]
      · rw [if_neg hz, if_pos hlt]
  · intro hge
    have hz : ¬ (min (p.clipSize - g.loadedAmmo) g.reserveAmmo = 0) := by omega
    have hlt : ¬ (min (p.clipSize - g.loadedAmmo) g.reserveAmmo < p.ammoPerFire) := by omega
    simp only [triggerReload, hsome, hu, Bool.false_eq_true, if_false, if_neg hz, if_neg hlt]
    constructor
    · simp [resetBurst, resetAutoAttack]; omega
    · simp [resetBurst, resetAutoAttack]; omega
  · by_cases hz : min (p.clipSize - g.loadedAmmo) g.reserveAmmo = 0
    · simp only [triggerReload, hsome, hu, Bool.false_eq_true, if_false, if_pos hz]
    · by_cases hlt : min (p.clipSize - g.loadedAmmo) g.reserveAmmo < p.ammoPerFire
      · simp only [triggerReload, hsome, hu, Bool.false_eq_true, if_false, if_neg hz, if_pos hlt]
      · simp only [triggerReload, hsome, hu, Bool.false_eq_true, if_false, if_neg hz, if_neg hlt]
        simp [resetBurst, resetAutoAttack]; omega

/-- Witness for `C4_reload_transfer` at defaults, `loadedAmmo = 4`,
`reserveAmmo = 20` (transfer `6`). -/
theorem C4_reload_transfer_witness :
    (Gun.reloadTimer { loadedAmmo := 4, reserveAmmo := 20 } = none ∧
     (0 : Int) < GunProps.ammoPerFire {} ∧
     (0 : Int) ≤ Gun.loadedAmmo { loadedAmmo := 4, reserveAmmo := 20 } ∧
     Gun.loadedAmmo { loadedAmmo := 4, reserveAmmo := 20 } ≤ GunProps.clipSize {} ∧
     (0 : Int) ≤ Gun.reserveAmmo { loadedAmmo := 4, reserveAmmo := 20 } ∧
     Gun.reserveAmmo { loadedAmmo := 4, reserveAmmo := 20 }
       ≤ GunProps.maxAmmo {} - Gun.loadedAmmo { loadedAmmo := 4, reserveAmmo := 20 }) ∧
    ((min (GunProps.clipSize {} - Gun.loadedAmmo { loadedAmmo := 4, reserveAmmo := 20 })
         (Gun.reserveAmmo { loadedAmmo := 4, reserveAmmo := 20 }) = 0 ∨
       min (GunProps.clipSize {} - Gun.loadedAmmo { loadedAmmo := 4, reserveAmmo := 20 })
         (Gun.reserveAmmo { loadedAmmo := 4, reserveAmmo := 20 }) < GunProps.ammoPerFire {} →
     triggerReload {} { loadedAmmo := 4, reserveAmmo := 20 } = { loadedAmmo := 4, reserveAmmo := 20 }) ∧
    (GunProps.ammoPerFire {}
        ≤ min (GunProps.clipSize {} - Gun.loadedAmmo { loadedAmmo := 4, reserveAmmo := 20 })
            (Gun.reserveAmmo { loadedAmmo := 4, reserveAmmo := 20 }) →
     (triggerReload {} { loadedAmmo := 4, reserveAmmo := 20 }).loadedAmmo
        = Gun.loadedAmmo { loadedAmmo := 4, reserveAmmo := 20 }
          + min (GunProps.clipSize {} - Gun.loadedAmmo { loadedAmmo := 4, reserveAmmo := 20 })
              (Gun.reserveAmmo { loadedAmmo := 4, reserveAmmo := 20 }) ∧
     (triggerReload {} { loadedAmmo := 4, reserveAmmo := 20 }).reserveAmmo
        = Gun.reserveAmmo { loadedAmmo := 4, reserveAmmo := 20 }
          - min (GunProps.clipSize {} - Gun.loadedAmmo { loadedAmmo := 4, reserveAmmo := 20 })
              (Gun.reserveAmmo { loadedAmmo := 4, reserveAmmo := 20 })) ∧
    (triggerReload {} { loadedAmmo := 4, reserveAmmo := 20 }).loadedAmmo
       + (triggerReload {} { loadedAmmo := 4, reserveAmmo := 20 }).reserveAmmo
      = Gun.loadedAmmo { loadedAmmo := 4, reserveAmmo := 20 }
        + Gun.reserveAmmo { loadedAmmo := 4, reserveAmmo := 20 }) :=
  ⟨by decide,
   C4_reload_transfer {} { loadedAmmo := 4, reserveAmmo := 20 } rfl (by decide)
     (by decide) (by decide) (by decide) (by decide)⟩

/-! ## C5: unlimited-ammo behaviour -/

/-- **C5.** When `ammoPerFire <= 0` the ammo check in `canAttack` passes for every
ammo state (the only remaining gate is the cooldown flag), `triggerAttack` leaves
`loadedAmmo` (and `reserveAmmo`) unchanged, and `triggerReload` is a no-op. -/
theorem C5_unlimited_ammo (p : GunProps) (g : Gun) (hU : p.ammoPerFire ≤ 0) :
    canAttack p g = !g.attackCooldown ∧
    (triggerAttack p g).loadedAmmo = g.loadedAmmo ∧
    (triggerAttack p g).reserveAmmo = g.reserveAmmo ∧
    triggerReload p g = g := by
  have hmax : max 0 p.ammoPerFire = 0 := by omega
  have hca : canAttack p g = !g.attackCooldown := by
    unfold canAttack
    cases h : g.attackCooldown <;> simp [hmax]
  have hdeduct : ¬ (0 < p.ammoPerFire) := by omega
  refine ⟨hca, ?_, ?_, ?_⟩
  · unfold triggerAttack
    rw [hca]
    cases h : g.attackCooldown
    all_goals simp [resetBurst, resetAutoAttack, hdeduct, finishFiring_loadedAmmo]
    all_goals split_ifs
    all_goals simp [finishFiring_loadedAmmo]
  · unfold triggerAttack
    rw [hca]
    cases h : g.attackCooldown
    all_goals simp [resetBurst, resetAutoAttack, hdeduct, finishFiring_reserveAmmo]
    all_goals split_ifs
    all_goals simp [finishFiring_reserveAmmo]
  · unfold triggerReload
    have : hasUnlimitedAmmo p = true := by simp [hasUnlimitedAmmo]; omega
    simp [this]

/-- Witness for `C5_unlimited_ammo` at `ammoPerFire = 0`, `loadedAmmo = 0`. -/
theorem C5_unlimited_ammo_witness :
    (GunProps.ammoPerFire { ammoPerFire := 0 } ≤ 0) ∧
    (canAttack { ammoPerFire := 0 } { reserveAmmo := 3 }
        = !Gun.attackCooldown { reserveAmmo := 3 } ∧
     (triggerAttack { ammoPerFire := 0 } { reserveAmmo := 3 }).loadedAmmo
        = Gun.loadedAmmo { reserveAmmo := 3 } ∧
     (triggerAttack { ammoPerFire := 0 } { reserveAmmo := 3 }).reserveAmmo
        = Gun.reserveAmmo { reserveAmmo := 3 } ∧
     triggerReload { ammoPerFire := 0 } { reserveAmmo := 3 } = { reserveAmmo := 3 }) :=
  ⟨by decide, C5_unlimited_ammo { ammoPerFire := 0 } { reserveAmmo := 3 } (by decide)⟩

/-! ## C1: the consume path never goes negative -/

lemma triggerAttack_loadedAmmo_nonneg (p : GunProps) (g : Gun)
    (h : 0 ≤ g.loadedAmmo) : 0 ≤ (triggerAttack p g).loadedAmmo := by
  unfold triggerAttack
  split_ifs
  all_goals try simp only [apply_ite Gun.loadedAmmo, finishFiring_loadedAmmo,
    setLoadedAmmo_loadedAmmo, resetBurst, resetAutoAttack]
  all_goals try split_ifs
  all_goals omega

/-- **C1.** Starting from any state with `loadedAmmo >= 0`, every finite sequence
of `triggerAttack` calls keeps `loadedAmmo >= 0`, and a `triggerAttack` whose
`ammoPerFire` exceeds the current `loadedAmmo` deducts nothing: it is rejected by
`canAttack`. -/
theorem C1_consume_never_negative (p : GunProps) (g : Gun) (n : Nat)
    (h : 0 ≤ g.loadedAmmo) :
    0 ≤ (attackSeq p g n).loadedAmmo ∧
    (g.loadedAmmo < p.ammoPerFire →
      canAttack p g = false ∧ (triggerAttack p g).loadedAmmo = g.loadedAmmo) := by
  constructor
  · induction n with
    | zero => exact h
    | succ n ih => exact triggerAttack_loadedAmmo_nonneg p _ ih
  · intro hlow
    have hca : canAttack p g = false := by
      simp only [canAttack]
      split_ifs with h1 h2 h3
      · rfl
      · omega
      · rfl
      · omega
    refine ⟨hca, ?_⟩
    unfold triggerAttack
    rw [hca]
    simp [resetBurst, resetAutoAttack]

/-- Witness for `C1_consume_never_negative`: default props (`ammoPerFire = 1`),
`loadedAmmo = 0`, a sequence of 4 attacks. -/
theorem C1_consume_never_negative_witness :
    ((0 : Int) ≤ Gun.loadedAmmo { reserveAmmo := 2 }) ∧
    (0 ≤ (attackSeq {} { reserveAmmo := 2 } 4).loadedAmmo ∧
     (Gun.loadedAmmo { reserveAmmo := 2 } < GunProps.ammoPerFire {} →
       canAttack {} { reserveAmmo := 2 } = false ∧
       (triggerAttack {} { reserveAmmo := 2 }).loadedAmmo = Gun.loadedAmmo { reserveAmmo := 2 })) :=
  ⟨by decide, C1_consume_never_negative {} { reserveAmmo := 2 } 4 (by decide)⟩

/-! ## C10: round-robin FX accessors are total and in bounds -/

/-- **C10.** `getImpactFX` and `getMissFX` are total: on an empty group list they
return `[]` and leave the state (including the round-robin index) unchanged; on a
non-empty list they read the group at `nextIdx % length` — in bounds for every
stored index and non-empty length — and store `nextIdx % length + 1`, whose next
modulo access is in bounds for every later non-empty length `k`. -/
theorem C10_fx_total_in_bounds (g : Gun) (k : Nat) (hk : 0 < k) :
    (g.impactFX = [] → getImpactFX g = ([], g)) ∧
    (g.missFX = [] → getMissFX g = ([], g)) ∧
    (g.impactFX ≠ [] →
      g.nextImpactFXIdx % g.impactFX.length < g.impactFX.length ∧
      (getImpactFX g).1 = g.impactFX.getD (g.nextImpactFXIdx % g.impactFX.length) [] ∧
      (getImpactFX g).2
        = { g with nextImpactFXIdx := g.nextImpactFXIdx % g.impactFX.length + 1 } ∧
      (getImpactFX g).2.nextImpactFXIdx % k < k) ∧
    (g.missFX ≠ [] →
      g.nextMissFXIdx % g.missFX.length < g.missFX.length ∧
      (getMissFX g).1 = g.missFX.getD (g.nextMissFXIdx % g.missFX.length) [] ∧
      (getMissFX g).2
        = { g with nextMissFXIdx := g.nextMissFXIdx % g.missFX.length + 1 } ∧
      (getMissFX g).2.nextMissFXIdx % k < k) := by
  refine ⟨?_, ?_, ?_, ?_⟩
  · intro h; simp [getImpactFX, h]
  · intro h; simp [getMissFX, h]
  · intro h
    have hlen : 0 < g.impactFX.length := List.length_pos.mpr h
    have hne : ¬ (g.impactFX.length = 0) := by omega
    refine ⟨Nat.mod_lt _ hlen, ?_, ?_, ?_⟩
    · simp [getImpactFX, hne]
    · simp [getImpactFX, hne]
    · simp only [getImpactFX, hne, if_neg]
      exact Nat.mod_lt _ hk
  · intro h
    have hlen : 0 < g.missFX.length := List.length_pos.mpr h
    have hne : ¬ (g.missFX.length = 0) := by omega
    refine ⟨Nat.mod_lt _ hlen, ?_, ?_, ?_⟩
    · simp [getMissFX, hne]
    · simp [getMissFX, hne]
    · simp only [getMissFX, hne, if_neg]
      exact Nat.mod_lt _ hk

/-- Witness for `C10_fx_total_in_bounds`: two impact groups, one miss group,
`nextImpactFXIdx = 5`, later length `k = 3`. -/
theorem C10_fx_total_in_bounds_witness :
    (0 < 3) ∧
    ((Gun.impactFX { impactFX := [[1], [2, 3]], missFX := [[4]], nextImpactFXIdx := 5 } = [] →
       getImpactFX { impactFX := [[1], [2, 3]], missFX := [[4]], nextImpactFXIdx := 5 }
         = ([], { impactFX := [[1], [2, 3]], missFX := [[4]], nextImpactFXIdx := 5 })) ∧
     (Gun.missFX { impactFX := [[1], [2, 3]], missFX := [[4]], nextImpactFXIdx := 5 } = [] →
       getMissFX { impactFX := [[1], [2, 3]], missFX := [[4]], nextImpactFXIdx := 5 }
         = ([], { impactFX := [[1], [2, 3]], missFX := [[4]], nextImpactFXIdx := 5 })) ∧
     (Gun.impactFX { impactFX := [[1], [2, 3]], missFX := [[4]], nextImpactFXIdx := 5 } ≠ [] →
       Gun.nextImpactFXIdx { impactFX := [[1], [2, 3]], missFX := [[4]], nextImpactFXIdx := 5 }
           % (Gun.impactFX { impactFX := [[1], [2, 3]], missFX := [[4]], nextImpactFXIdx := 5 }).length
         < (Gun.impactFX { impactFX := [[1], [2, 3]], missFX := [[4]], nextImpactFXIdx := 5 }).length ∧
       (getImpactFX { impactFX := [[1], [2, 3]], missFX := [[4]], nextImpactFXIdx := 5 }).1
         = (Gun.impactFX { impactFX := [[1], [2, 3]], missFX := [[4]], nextImpactFXIdx := 5 }).getD
             (Gun.nextImpactFXIdx { impactFX := [[1], [2, 3]], missFX := [[4]], nextImpactFXIdx := 5 }
               % (Gun.impactFX { impactFX := [[1], [2, 3]], missFX := [[4]], nextImpactFXIdx := 5 }).length) [] ∧
       (getImpactFX { impactFX := [[1], [2, 3]], missFX := [[4]], nextImpactFXIdx := 5 }).2
         = { Gun.mk 0 0 false none none none 0 none none [[1], [2, 3]] [[4]] 5 0 0 0 [] [] with
               nextImpactFXIdx :=
                 Gun.nextImpactFXIdx { impactFX := [[1], [2, 3]], missFX := [[4]], nextImpactFXIdx := 5 }
                   % (Gun.impactFX { impactFX := [[1], [2, 3]], missFX := [[4]], nextImpactFXIdx := 5 }).length + 1 } ∧
       (getImpactFX { impactFX := [[1], [2, 3]], missFX := [[4]], nextImpactFXIdx := 5 }).2.nextImpactFXIdx % 3 < 3) ∧
     (Gun.missFX { impactFX := [[1], [2, 3]], missFX := [[4]], nextImpactFXIdx := 5 } ≠ [] →
       Gun.nextMissFXIdx { impactFX := [[1], [2, 3]], missFX := [[4]], nextImpactFXIdx := 5 }
           % (Gun.missFX { impactFX := [[1], [2, 3]], missFX := [[4]], nextImpactFXIdx := 5 }).length
         < (Gun.missFX { impactFX := [[1], [2, 3]], missFX := [[4]], nextImpactFXIdx := 5 }).length ∧
       (getMissFX { impactFX := [[1], [2, 3]], missFX := [[4]], nextImpactFXIdx := 5 }).1
         = (Gun.missFX { impactFX := [[1], [2, 3]], missFX := [[4]], nextImpactFXIdx := 5 }).getD
             (Gun.nextMissFXIdx { impactFX := [[1], [2, 3]], missFX := [[4]], nextImpactFXIdx := 5 }
               % (Gun.missFX { impactFX := [[1], [2, 3]], missFX := [[4]], nextImpactFXIdx := 5 }).length) [] ∧
       (getMissFX { impactFX := [[1], [2, 3]], missFX := [[4]], nextImpactFXIdx := 5 }).2
         = { Gun.mk 0 0 false none none none 0 none none [[1], [2, 3]] [[4]] 5 0 0 0 [] [] with
               nextMissFXIdx :=
                 Gun.nextMissFXIdx { impactFX := [[1], [2, 3]], missFX := [[4]], nextImpactFXIdx := 5 }
                   % (Gun.missFX { impactFX := [[1], [2, 3]], missFX := [[4]], nextImpactFXIdx := 5 }).length + 1 } ∧
       (getMissFX { impactFX := [[1], [2, 3]], missFX := [[4]], nextImpactFXIdx := 5 }).2.nextMissFXIdx % 3 < 3)) :=
  ⟨by decide, C10_fx_total_in_bounds { impactFX := [[1], [2, 3]], missFX := [[4]], nextImpactFXIdx := 5 } 3 (by decide)⟩

/-! ## C8: hitscan projectile visualization (corrected) -/

/-- **C8 counterexample.** On a hit at distance `10` with zero spray and
`projectileSpeed = 150`, the visualization projectile is launched immediately
(no single-frame delay, no rotation change) and its travel duration is
`(10 + 4) / 150`, not `10 / 150`: the code pads a hit's distance by `4`. -/
theorem C8_counterexample :
    (visualizeHitscanProjectile true 10 true 150).delayedLaunch = false ∧
    (visualizeHitscanProjectile true 10 true 150).duration ≠ 10 / 150 ∧
    (visualizeHitscanProjectile true 10 true 150).duration = (10 + 4) / 150 := by
  refine ⟨rfl, ?_, ?_⟩
  · norm_num [visualizeHitscanProjectile]
  · norm_num [visualizeHitscanProjectile]

/-- **C8 amended.** In hitscan mode with a projectile launcher also configured,
the visualization projectile is launched after a single-frame delay (with the
launcher's rotation set from the spray angles) only when the sampled spray angle
is nonzero; with zero spray it is launched immediately and no rotation is set.
Its travel duration is `(distance + 4) / projectileSpeed` on a hit and
`distance / projectileSpeed` on a miss, `distance` being the distance from the
launcher to the computed hit point. -/
theorem C8_amended_visualization (hit : Bool) (dist : ℚ) (sprayIsZero : Bool)
    (speed : ℚ) :
    (visualizeHitscanProjectile hit dist sprayIsZero speed).duration
      = (if hit then dist + 4 else dist) / speed ∧
    (visualizeHitscanProjectile hit dist sprayIsZero speed).delayedLaunch = !sprayIsZero ∧
    (visualizeHitscanProjectile hit dist sprayIsZero speed).rotationSet = !sprayIsZero := by
  unfold visualizeHitscanProjectile
  cases sprayIsZero
  all_goals simp

/-! ## C9: change-notification idempotence (corrected) -/

/-- **C9 counterexample.** From a state with `loadedAmmo = 5` (and `clipSize = 10`),
calling `setLoaded(5)` twice emits zero `loadedAmmoChanged` events in total --
not exactly one: the claim fails for values whose clamp equals the stored value. -/
theorem C9_counterexample :
    (setLoadedAmmo {} 5 (setLoadedAmmo {} 5 { loadedAmmo := 5 })).events = [] ∧
    ¬ ((setLoadedAmmo {} 5 (setLoadedAmmo {} 5 { loadedAmmo := 5 })).events.length = 1) := by
  decide

lemma setLoadedAmmo_noop (p : GunProps) (x : Int) (g : Gun)
    (hx : max 0 (min (max 0 p.clipSize) x) = g.loadedAmmo) :
    setLoadedAmmo p x g = g := by
  simp [setLoadedAmmo, hx]

lemma setReserveAmmo_noop (p : GunProps) (x : Int) (g : Gun)
    (hx : max 0 (min x (max 0 p.maxAmmo - g.loadedAmmo)) = g.reserveAmmo) :
    setReserveAmmo p x g = g := by
  simp [setReserveAmmo, hx]

/-- **C9 amended.** An assignment to `loadedAmmo` (or `reserveAmmo`) whose clamped
result equals the current stored value leaves the state unchanged and emits
nothing; both setters are idempotent, so `setLoaded(x)` twice emits at most one
`loadedAmmoChanged` event in total -- exactly one precisely when the first call
changes the stored value, zero otherwise, and never two. -/
theorem C9_amended_idempotence (p : GunProps) (g : Gun) (x : Int) :
    (max 0 (min (max 0 p.clipSize) x) = g.loadedAmmo → setLoadedAmmo p x g = g) ∧
    (max 0 (min x (max 0 p.maxAmmo - g.loadedAmmo)) = g.reserveAmmo →
      setReserveAmmo p x g = g) ∧
    setLoadedAmmo p x (setLoadedAmmo p x g) = setLoadedAmmo p x g ∧
    setReserveAmmo p x (setReserveAmmo p x g) = setReserveAmmo p x g ∧
    (setLoadedAmmo p x g).events.length
      = g.events.length
        + (if max 0 (min (max 0 p.clipSize) x) = g.loadedAmmo then 0 else 1) := by
  refine ⟨setLoadedAmmo_noop p x g, setReserveAmmo_noop p x g, ?_, ?_, ?_⟩
  · exact setLoadedAmmo_noop p x _ (setLoadedAmmo_loadedAmmo p x g).symm
  · refine setReserveAmmo_noop p x _ ?_
    rw [setReserveAmmo_loadedAmmo, setReserveAmmo_reserveAmmo]
  · simp only [setLoadedAmmo]
    split_ifs with h1 h2 h3
    · exact absurd h2.symm h1
    · simp
    · simp
    · exact absurd (Eq.symm (not_ne_iff.mp h1)) h3

/-- Witness for `C9_amended_idempotence` at defaults, `loadedAmmo = 5`, `x = 9`. -/
theorem C9_amended_idempotence_witness :
    (max 0 (min (max 0 (GunProps.clipSize {})) 9) = Gun.loadedAmmo { loadedAmmo := 5 } →
      setLoadedAmmo {} 9 { loadedAmmo := 5 } = { loadedAmmo := 5 }) ∧
    (max 0 (min 9 (max 0 (GunProps.maxAmmo {}) - Gun.loadedAmmo { loadedAmmo := 5 }))
        = Gun.reserveAmmo { loadedAmmo := 5 } →
      setReserveAmmo {} 9 { loadedAmmo := 5 } = { loadedAmmo := 5 }) ∧
    setLoadedAmmo {} 9 (setLoadedAmmo {} 9 { loadedAmmo := 5 })
      = setLoadedAmmo {} 9 { loadedAmmo := 5 } ∧
    setReserveAmmo {} 9 (setReserveAmmo {} 9 { loadedAmmo := 5 })
      = setReserveAmmo {} 9 { loadedAmmo := 5 } ∧
    (setLoadedAmmo {} 9 { loadedAmmo := 5 }).events.length
      = (Gun.events { loadedAmmo := 5 }).length
        + (if max 0 (min (max 0 (GunProps.clipSize {})) 9) = Gun.loadedAmmo { loadedAmmo := 5 }
           then 0 else 1) :=
  C9_amended_idempotence {} { loadedAmmo := 5 } 9

/-! ## C7: the reload window does not gate attacks (corrected) -/

lemma triggerReload_noop_of_pending (p : GunProps) (g : Gun)
    (h : g.reloadTimer.isSome = true) : triggerReload p g = g := by
  simp [triggerReload, h]

lemma triggerReload_success_fields (p : GunProps) (g : Gun)
    (hrt : g.reloadTimer = none) (hU : 0 < p.ammoPerFire)
    (hz : ¬ (min (p.clipSize - g.loadedAmmo) g.reserveAmmo = 0))
    (hge : ¬ (min (p.clipSize - g.loadedAmmo) g.reserveAmmo < p.ammoPerFire)) :
    (triggerReload p g).reloadTimer = some (g.now + 1000, false) ∧
    (triggerReload p g).loadedAmmo
      = max 0 (min (max 0 p.clipSize)
          (g.loadedAmmo + min (p.clipSize - g.loadedAmmo) g.reserveAmmo)) ∧
    (triggerReload p g).attackCooldown = g.attackCooldown ∧
    (triggerReload p g).fireDelay = g.fireDelay ∧
    (triggerReload p g).currentBurstCount = 0 ∧
    (triggerReload p g).shotsFired = g.shotsFired ∧
    (triggerReload p g).now = g.now := by
  have hu : hasUnlimitedAmmo p = false := by
    simp [hasUnlimitedAmmo]; omega
  have hsome : g.reloadTimer.isSome = false := by rw [hrt]; rfl
  simp only [triggerReload, hsome, hu, Bool.false_eq_true, if_false, if_neg hz, if_neg hge]
  refine ⟨?_, ?_, ?_, ?_, ?_, ?_, ?_⟩
  all_goals simp [resetBurst, resetAutoAttack]

/-- **C7 counterexample.** Take default props on VR with `loadedAmmo = 0`,
`reserveAmmo = 20`, no pending timers.  `triggerReload` succeeds and opens the
1000 ms reload-in-progress window (`reloadTimer` pending with deadline 1000, the
clock still at 0), yet the immediately following `triggerAttack` -- issued inside
that window -- passes `canAttack` (including its ammo check, since the reload
transferred the ammo at once) and fires a shot, deducting ammo: the claim that
every attack in the window fails the ammo check and no shot fires is false. -/
theorem C7_counterexample :
    (triggerReload { isVR := true } { loadedAmmo := 0, reserveAmmo := 20 }).reloadTimer
      = some (1000, false) ∧
    (triggerReload { isVR := true } { loadedAmmo := 0, reserveAmmo := 20 }).now = 0 ∧
    canAttack { isVR := true }
      (triggerReload { isVR := true } { loadedAmmo := 0, reserveAmmo := 20 }) = true ∧
    (triggerAttack { isVR := true }
      (triggerReload { isVR := true } { loadedAmmo := 0, reserveAmmo := 20 })).shotsFired = 1 ∧
    (triggerAttack { isVR := true }
      (triggerReload { isVR := true } { loadedAmmo := 0, reserveAmmo := 20 })).loadedAmmo = 9 := by
  decide

/-- **C7 amended.** A successful `triggerReload` opens a 1000 ms
reload-in-progress window (`reloadTimer` pending); while it is pending further
`triggerReload` calls are no-ops, but `triggerAttack` is not gated by the window
at all: the reload transfers ammo immediately, so an attack issued during the
window passes `canAttack` (cooldown clear) -- including the ammo check -- and
fires a shot. -/
theorem C7_amended_reload_window (p : GunProps) (g : Gun)
    (hrt : g.reloadTimer = none) (hU : 0 < p.ammoPerFire)
    (h1 : 0 ≤ g.loadedAmmo) (h2 : g.loadedAmmo ≤ p.clipSize)
    (h3 : 0 ≤ g.reserveAmmo) (h4 : g.reserveAmmo ≤ p.maxAmmo - g.loadedAmmo)
    (hT : p.ammoPerFire ≤ min (p.clipSize - g.loadedAmmo) g.reserveAmmo)
    (hcool : g.attackCooldown = false) (hfd : g.fireDelay = none)
    (hvr : p.isVR = true) :
    (triggerReload p g).reloadTimer = some (g.now + 1000, false) ∧
    triggerReload p (triggerReload p g) = triggerReload p g ∧
    canAttack p (triggerReload p g) = true ∧
    (triggerAttack p (triggerReload p g)).shotsFired = g.shotsFired + 1 := by
  have hz : ¬ (min (p.clipSize - g.loadedAmmo) g.reserveAmmo = 0) := by omega
  have hge : ¬ (min (p.clipSize - g.loadedAmmo) g.reserveAmmo < p.ammoPerFire) := by omega
  obtain ⟨f1, f2, f3, f4, f5, f6, f7⟩ := triggerReload_success_fields p g hrt hU hz hge
  have hloaded : (triggerReload p g).loadedAmmo
      = g.loadedAmmo + min (p.clipSize - g.loadedAmmo) g.reserveAmmo := by
    rw [f2]; omega
  have hca : canAttack p (triggerReload p g) = true := by
    simp only [canAttack, f3, hcool, hloaded, Bool.false_eq_true, if_false]
    split_ifs with hA hB
    · rfl
    · omega
    · rfl
  refine ⟨f1, ?_, hca, ?_⟩
  · exact triggerReload_noop_of_pending p _ (by rw [f1]; rfl)
  · simp [triggerAttack, hca, f4, hfd, f5, f6, hvr, finishFiring_shotsFired,
      apply_ite Gun.shotsFired]

/-- Witness for `C7_amended_reload_window` at defaults on VR, `loadedAmmo = 0`,
`reserveAmmo = 12`. -/
theorem C7_amended_reload_window_witness :
    (Gun.reloadTimer { loadedAmmo := 0, reserveAmmo := 12 } = none ∧
     (0 : Int) < GunProps.ammoPerFire { isVR := true } ∧
     (0 : Int) ≤ Gun.loadedAmmo { loadedAmmo := 0, reserveAmmo := 12 } ∧
     Gun.loadedAmmo { loadedAmmo := 0, reserveAmmo := 12 } ≤ GunProps.clipSize { isVR := true } ∧
     (0 : Int) ≤ Gun.reserveAmmo { loadedAmmo := 0, reserveAmmo := 12 } ∧
     Gun.reserveAmmo { loadedAmmo := 0, reserveAmmo := 12 }
       ≤ GunProps.maxAmmo { isVR := true } - Gun.loadedAmmo { loadedAmmo := 0, reserveAmmo := 12 } ∧
     GunProps.ammoPerFire { isVR := true }
       ≤ min (GunProps.clipSize { isVR := true } - Gun.loadedAmmo { loadedAmmo := 0, reserveAmmo := 12 })
           (Gun.reserveAmmo { loadedAmmo := 0, reserveAmmo := 12 }) ∧
     Gun.attackCooldown { loadedAmmo := 0, reserveAmmo := 12 } = false ∧
     Gun.fireDelay { loadedAmmo := 0, reserveAmmo := 12 } = none ∧
     GunProps.isVR { isVR := true } = true) ∧
    ((triggerReload { isVR := true } { loadedAmmo := 0, reserveAmmo := 12 }).reloadTimer
       = some (Gun.now { loadedAmmo := 0, reserveAmmo := 12 } + 1000, false) ∧
     triggerReload { isVR := true } (triggerReload { isVR := true } { loadedAmmo := 0, reserveAmmo := 12 })
       = triggerReload { isVR := true } { loadedAmmo := 0, reserveAmmo := 12 } ∧
     canAttack { isVR := true }
       (triggerReload { isVR := true } { loadedAmmo := 0, reserveAmmo := 12 }) = true ∧
     (triggerAttack { isVR := true }
       (triggerReload { isVR := true } { loadedAmmo := 0, reserveAmmo := 12 })).shotsFired
       = Gun.shotsFired { loadedAmmo := 0, reserveAmmo := 12 } + 1) :=
  ⟨by decide,
   C7_amended_reload_window { isVR := true } { loadedAmmo := 0, reserveAmmo := 12 }
     rfl (by decide) (by decide) (by decide) (by decide) (by decide) (by decide)
     rfl rfl rfl⟩

lemma run_succ_shift (p : GunProps) (g : Gun) (n : Nat) :
    run p g (n + 1) = run p (step p g) n := by
  induction n with
  | zero => rfl
  | succ n ih =>
    show step p (run p g (n + 1)) = step p (run p (step p g) n)
    rw [ih]

lemma burst_phase (p : GunProps) (a L c m R : Int) (b : Bool) (t0 : Nat)
    (E : List GunEvent) (S : Gun)
    (ha : 0 < a) (hL : 3 * a ≤ L) (hc : L ≤ c)
    (hp : p = { ammoPerFire := a, clipSize := c, maxAmmo := m,
                bulletBurstPerFire := 3, isVR := b })
    (hS : S = { loadedAmmo := L - a, reserveAmmo := R, attackCooldown := true,
                attackCooldownTimer := some (t0 + 1000),
                bulletBurstTimer := some (t0 + 100), currentBurstCount := 2,
                now := t0, shotsFired := 1, shotTimes := [t0], events := E }) :
    (run p S 5).shotsFired = 3 ∧
    (run p S 5).loadedAmmo = L - 3 * a ∧
    (run p S 5).reserveAmmo = R ∧
    (run p S 5).shotTimes = [t0, t0 + 100, t0 + 200] ∧
    nextDeadline (run p S 5) = none ∧
    step p (run p S 5) = run p S 5 := by
  subst hp
  subst hS
  have hmaxa : max 0 a = a := by omega
  have hane : ¬ (a = 0) := by omega
  have hc2 : ¬ (L - a < a) := by omega
  have hc3 : ¬ (L - a - a < a) := by omega
  have hclampA : max 0 (min (max 0 c) (L - a - a)) = L - a - a := by omega
  have hclampB : max 0 (min (max 0 c) (L - a - a - a)) = L - a - a - a := by omega
  have hne2 : ¬ (L - a = L - a - a) := by omega
  have hne3 : ¬ (L - a - a = L - a - a - a) := by omega
  have htn1 : (max 10 (1000 : Int)).toNat = 1000 := by omega
  have htn2 : ((100 : Int)).toNat = 100 := by omega
  have hmin1 : min (t0 + 100) (t0 + 1000) = t0 + 100 := by omega
  have hmin2 : min (t0 + 100 + 100) (t0 + 100 + 1000) = t0 + 100 + 100 := by omega
  have hmin3 : min (t0 + 100 + 100 + 100) (t0 + 100 + 100 + 1000)
      = t0 + 100 + 100 + 100 := by omega
  have e1 : step { ammoPerFire := a, clipSize := c, maxAmmo := m,
                   bulletBurstPerFire := 3, isVR := b }
      { loadedAmmo := L - a, reserveAmmo := R, attackCooldown := true,
        attackCooldownTimer := some (t0 + 1000), bulletBurstTimer := some (t0 + 100),
        currentBurstCount := 2, now := t0, shotsFired := 1, shotTimes := [t0], events := E }
      = { loadedAmmo := L - a - a, reserveAmmo := R, attackCooldown := true,
          attackCooldownTimer := some (t0 + 100 + 1000),
          bulletBurstTimer := some (t0 + 100 + 100), currentBurstCount := 1,
          now := t0 + 100, shotsFired := 2, shotTimes := [t0, t0 + 100],
          events := E ++ [GunEvent.loadedAmmoChanged (L - a - a) (L - a)] } := by
    simp [step, nextDeadline, optMin, hmin1, burstTick, triggerAttack, canAttack, hmaxa,
      hane, hc2, ha, setLoadedAmmo, hclampA, hne2, finishFiring, hc3, triggerBurst,
      triggerAutoAttack, resetBurst, resetAutoAttack, htn1, htn2]
  by_cases hA : L - a - a - a < a
  · have e2 : step { ammoPerFire := a, clipSize := c, maxAmmo := m,
                     bulletBurstPerFire := 3, isVR := b }
        { loadedAmmo := L - a - a, reserveAmmo := R, attackCooldown := true,
          attackCooldownTimer := some (t0 + 100 + 1000),
          bulletBurstTimer := some (t0 + 100 + 100), currentBurstCount := 1,
          now := t0 + 100, shotsFired := 2, shotTimes := [t0, t0 + 100],
          events := E ++ [GunEvent.loadedAmmoChanged (L - a - a) (L - a)] }
        = { loadedAmmo := L - a - a - a, reserveAmmo := R, attackCooldown := true,
            attackCooldownTimer := some (t0 + 100 + 100 + 1000),
            bulletBurstTimer := none, currentBurstCount := -1,
            now := t0 + 100 + 100, shotsFired := 3,
            shotTimes := [t0, t0 + 100, t0 + 100 + 100],
            events := E ++ [GunEvent.loadedAmmoChanged (L - a - a) (L - a),
              GunEvent.loadedAmmoChanged (L - a - a - a) (L - a - a)] } := by
      simp [step, nextDeadline, optMin, hmin2, burstTick, triggerAttack, canAttack, hmaxa,
        hane, hc3, ha, setLoadedAmmo, hclampB, hne3, finishFiring, hA, triggerBurst,
        triggerAutoAttack, resetBurst, resetAutoAttack, htn1, htn2]
    have e3 : step { ammoPerFire := a, clipSize := c, maxAmmo := m,
                     bulletBurstPerFire := 3, isVR := b }
        { loadedAmmo := L - a - a - a, reserveAmmo := R, attackCooldown := true,
          attackCooldownTimer := some (t0 + 100 + 100 + 1000),
          bulletBurstTimer := none, currentBurstCount := -1,
          now := t0 + 100 + 100, shotsFired := 3,
          shotTimes := [t0, t0 + 100, t0 + 100 + 100],
          events := E ++ [GunEvent.loadedAmmoChanged (L - a - a) (L - a),
            GunEvent.loadedAmmoChanged (L - a - a - a) (L - a - a)] }
        = { loadedAmmo := L - a - a - a, reserveAmmo := R, attackCooldown := false,
            attackCooldownTimer := none, bulletBurstTimer := none,
            currentBurstCount := -1, now := t0 + 100 + 100 + 1000, shotsFired := 3,
            shotTimes := [t0, t0 + 100, t0 + 100 + 100],
            events := E ++ [GunEvent.loadedAmmoChanged (L - a - a) (L - a),
              GunEvent.loadedAmmoChanged (L - a - a - a) (L - a - a)] } := by
      simp [step, nextDeadline, optMin]
    have e4 : step { ammoPerFire := a, clipSize := c, maxAmmo := m,
                     bulletBurstPerFire := 3, isVR := b }
        { loadedAmmo := L - a - a - a, reserveAmmo := R, attackCooldown := false,
          attackCooldownTimer := none, bulletBurstTimer := none,
          currentBurstCount := -1, now := t0 + 100 + 100 + 1000, shotsFired := 3,
          shotTimes := [t0, t0 + 100, t0 + 100 + 100],
          events := E ++ [GunEvent.loadedAmmoChanged (L - a - a) (L - a),
            GunEvent.loadedAmmoChanged (L - a - a - a) (L - a - a)] }
        = { loadedAmmo := L - a - a - a, reserveAmmo := R, attackCooldown := false,
            attackCooldownTimer := none, bulletBurstTimer := none,
            currentBurstCount := -1, now := t0 + 100 + 100 + 1000, shotsFired := 3,
            shotTimes := [t0, t0 + 100, t0 + 100 + 100],
            events := E ++ [GunEvent.loadedAmmoChanged (L - a - a) (L - a),
              GunEvent.loadedAmmoChanged (L - a - a - a) (L - a - a)] } := by
      simp [step, nextDeadline, optMin]
    have hrun : run { ammoPerFire := a, clipSize := c, maxAmmo := m,
                      bulletBurstPerFire := 3, isVR := b }
        { loadedAmmo := L - a, reserveAmmo := R, attackCooldown := true,
          attackCooldownTimer := some (t0 + 1000), bulletBurstTimer := some (t0 + 100),
          currentBurstCount := 2, now := t0, shotsFired := 1, shotTimes := [t0],
          events := E } 5
        = { loadedAmmo := L - a - a - a, reserveAmmo := R, attackCooldown := false,
            attackCooldownTimer := none, bulletBurstTimer := none,
            currentBurstCount := -1, now := t0 + 100 + 100 + 1000, shotsFired := 3,
            shotTimes := [t0, t0 + 100, t0 + 100 + 100],
            events := E ++ [GunEvent.loadedAmmoChanged (L - a - a) (L - a),
              GunEvent.loadedAmmoChanged (L - a - a - a) (L - a - a)] } := by
      simp only [run]
      rw [e1, e2, e3, e4, e4]
    rw [hrun]
    refine ⟨rfl, by show L - a - a - a = L - 3 * a; omega, rfl, ?_,
      by simp [nextDeadline, optMin], e4⟩
    show [t0, t0 + 100, t0 + 100 + 100] = [t0, t0 + 100, t0 + 200]
    have h200 : t0 + 100 + 100 = t0 + 200 := by omega
    rw [h200]
  · have e2 : step { ammoPerFire := a, clipSize := c, maxAmmo := m,
                     bulletBurstPerFire := 3, isVR := b }
        { loadedAmmo := L - a - a, reserveAmmo := R, attackCooldown := true,
          attackCooldownTimer := some (t0 + 100 + 1000),
          bulletBurstTimer := some (t0 + 100 + 100), currentBurstCount := 1,
          now := t0 + 100, shotsFired := 2, shotTimes := [t0, t0 + 100],
          events := E ++ [GunEvent.loadedAmmoChanged (L - a - a) (L - a)] }
        = { loadedAmmo := L - a - a - a, reserveAmmo := R, attackCooldown := true,
            attackCooldownTimer := some (t0 + 100 + 100 + 1000),
            bulletBurstTimer := some (t0 + 100 + 100 + 100), currentBurstCount := 0,
            now := t0 + 100 + 100, shotsFired := 3,
            shotTimes := [t0, t0 + 100, t0 + 100 + 100],
            events := E ++ [GunEvent.loadedAmmoChanged (L - a - a) (L - a),
              GunEvent.loadedAmmoChanged (L - a - a - a) (L - a - a)] } := by
      simp [step, nextDeadline, optMin, hmin2, burstTick, triggerAttack, canAttack, hmaxa,
        hane, hc3, ha, setLoadedAmmo, hclampB, hne3, finishFiring, hA, triggerBurst,
        triggerAutoAttack, resetBurst, resetAutoAttack, htn1, htn2]
    have e3 : step { ammoPerFire := a, clipSize := c, maxAmmo := m,
                     bulletBurstPerFire := 3, isVR := b }
        { loadedAmmo := L - a - a - a, reserveAmmo := R, attackCooldown := true,
          attackCooldownTimer := some (t0 + 100 + 100 + 1000),
          bulletBurstTimer := some (t0 + 100 + 100 + 100), currentBurstCount := 0,
          now := t0 + 100 + 100, shotsFired := 3,
          shotTimes := [t0, t0 + 100, t0 + 100 + 100],
          events := E ++ [GunEvent.loadedAmmoChanged (L - a - a) (L - a),
            GunEvent.loadedAmmoChanged (L - a - a - a) (L - a - a)] }
        = { loadedAmmo := L - a - a - a, reserveAmmo := R, attackCooldown := true,
            attackCooldownTimer := some (t0 + 100 + 100 + 1000),
            bulletBurstTimer := none, currentBurstCount := 0,
            now := t0 + 100 + 100 + 100, shotsFired := 3,
            shotTimes := [t0, t0 + 100, t0 + 100 + 100],
            events := E ++ [GunEvent.loadedAmmoChanged (L - a - a) (L - a),
              GunEvent.loadedAmmoChanged (L - a - a - a) (L - a - a)] } := by
      simp [step, nextDeadline, optMin, hmin3, burstTick, resetBurst]
    have e4 : step { ammoPerFire := a, clipSize := c, maxAmmo := m,
                     bulletBurstPerFire := 3, isVR := b }
        { loadedAmmo := L - a - a - a, reserveAmmo := R, attackCooldown := true,
          attackCooldownTimer := some (t0 + 100 + 100 + 1000),
          bulletBurstTimer := none, currentBurstCount := 0,
          now := t0 + 100 + 100 + 100, shotsFired := 3,
          shotTimes := [t0, t0 + 100, t0 + 100 + 100],
          events := E ++ [GunEvent.loadedAmmoChanged (L - a - a) (L - a),
            GunEvent.loadedAmmoChanged (L - a - a - a) (L - a - a)] }
        = { loadedAmmo := L - a - a - a, reserveAmmo := R, attackCooldown := false,
            attackCooldownTimer := none, bulletBurstTimer := none,
            currentBurstCount := 0, now := t0 + 100 + 100 + 1000, shotsFired := 3,
            shotTimes := [t0, t0 + 100, t0 + 100 + 100],
            events := E ++ [GunEvent.loadedAmmoChanged (L - a - a) (L - a),
              GunEvent.loadedAmmoChanged (L - a - a - a) (L - a - a)] } := by
      simp [step, nextDeadline, optMin]
    have e5 : step { ammoPerFire := a, clipSize := c, maxAmmo := m,
                     bulletBurstPerFire := 3, isVR := b }
        { loadedAmmo := L - a - a - a, reserveAmmo := R, attackCooldown := false,
          attackCooldownTimer := none, bulletBurstTimer := none,
          currentBurstCount := 0, now := t0 + 100 + 100 + 1000, shotsFired := 3,
          shotTimes := [t0, t0 + 100, t0 + 100 + 100],
          events := E ++ [GunEvent.loadedAmmoChanged (L - a - a) (L - a),
            GunEvent.loadedAmmoChanged (L - a - a - a) (L - a - a)] }
        = { loadedAmmo := L - a - a - a, reserveAmmo := R, attackCooldown := false,
            attackCooldownTimer := none, bulletBurstTimer := none,
            currentBurstCount := 0, now := t0 + 100 + 100 + 1000, shotsFired := 3,
            shotTimes := [t0, t0 + 100, t0 + 100 + 100],
            events := E ++ [GunEvent.loadedAmmoChanged (L - a - a) (L - a),
              GunEvent.loadedAmmoChanged (L - a - a - a) (L - a - a)] } := by
      simp [step, nextDeadline, optMin]
    have hrun : run { ammoPerFire := a, clipSize := c, maxAmmo := m,
                      bulletBurstPerFire := 3, isVR := b }
        { loadedAmmo := L - a, reserveAmmo := R, attackCooldown := true,
          attackCooldownTimer := some (t0 + 1000), bulletBurstTimer := some (t0 + 100),
          currentBurstCount := 2, now := t0, shotsFired := 1, shotTimes := [t0],
          events := E } 5
        = { loadedAmmo := L - a - a - a, reserveAmmo := R, attackCooldown := false,
            attackCooldownTimer := none, bulletBurstTimer := none,
            currentBurstCount := 0, now := t0 + 100 + 100 + 1000, shotsFired := 3,
            shotTimes := [t0, t0 + 100, t0 + 100 + 100],
            events := E ++ [GunEvent.loadedAmmoChanged (L - a - a) (L - a),
              GunEvent.loadedAmmoChanged (L - a - a - a) (L - a - a)] } := by
      simp only [run]
      rw [e1, e2, e3, e4, e5]
    rw [hrun]
    refine ⟨rfl, by show L - a - a - a = L - 3 * a; omega, rfl, ?_,
      by simp [nextDeadline, optMin], e5⟩
    show [t0, t0 + 100, t0 + 100 + 100] = [t0, t0 + 100, t0 + 200]
    have h200 : t0 + 100 + 100 = t0 + 200 := by omega
    rw [h200]

/-- **C6.** With `bulletBurstPerFire = 3`, `bulletBurstDelay = 100` and
`loadedAmmo >= 3 * ammoPerFire > 0` (within the clip), a single `triggerAttack`
with no further input yields exactly 3 shots -- the first immediately (after the
50 ms wind-up on non-VR devices), the others one burst interval apart -- each
deducting `ammoPerFire`, leaving the scheduler quiescent; and a burst tick that
finds `loadedAmmo < ammoPerFire` cancels the remaining burst silently, firing no
shot and deducting nothing. -/
theorem C6_burst_of_three (a L c m R : Int) (b : Bool) (gX : Gun)
    (ha : 0 < a) (hL : 3 * a ≤ L) (hc : L ≤ c)
    (hgX1 : gX.loadedAmmo < a) (hgX2 : ¬ (gX.currentBurstCount = 0)) :
    ((run { ammoPerFire := a, clipSize := c, maxAmmo := m, bulletBurstPerFire := 3, isVR := b }
        (triggerAttack
          { ammoPerFire := a, clipSize := c, maxAmmo := m, bulletBurstPerFire := 3, isVR := b }
          { loadedAmmo := L, reserveAmmo := R }) 6).shotsFired = 3 ∧
     (run { ammoPerFire := a, clipSize := c, maxAmmo := m, bulletBurstPerFire := 3, isVR := b }
        (triggerAttack
          { ammoPerFire := a, clipSize := c, maxAmmo := m, bulletBurstPerFire := 3, isVR := b }
          { loadedAmmo := L, reserveAmmo := R }) 6).loadedAmmo = L - 3 * a ∧
     (run { ammoPerFire := a, clipSize := c, maxAmmo := m, bulletBurstPerFire := 3, isVR := b }
        (triggerAttack
          { ammoPerFire := a, clipSize := c, maxAmmo := m, bulletBurstPerFire := 3, isVR := b }
          { loadedAmmo := L, reserveAmmo := R }) 6).reserveAmmo = R ∧
     (run { ammoPerFire := a, clipSize := c, maxAmmo := m, bulletBurstPerFire := 3, isVR := b }
        (triggerAttack
          { ammoPerFire := a, clipSize := c, maxAmmo := m, bulletBurstPerFire := 3, isVR := b }
          { loadedAmmo := L, reserveAmmo := R }) 6).shotTimes
       = (if b then [0, 100, 200] else [50, 150, 250]) ∧
     nextDeadline
       (run { ammoPerFire := a, clipSize := c, maxAmmo := m, bulletBurstPerFire := 3, isVR := b }
        (triggerAttack
          { ammoPerFire := a, clipSize := c, maxAmmo := m, bulletBurstPerFire := 3, isVR := b }
          { loadedAmmo := L, reserveAmmo := R }) 6) = none) ∧
    ((burstTick { ammoPerFire := a, clipSize := c, maxAmmo := m, bulletBurstPerFire := 3, isVR := b }
        gX).loadedAmmo = gX.loadedAmmo ∧
     (burstTick { ammoPerFire := a, clipSize := c, maxAmmo := m, bulletBurstPerFire := 3, isVR := b }
        gX).shotsFired = gX.shotsFired ∧
     (burstTick { ammoPerFire := a, clipSize := c, maxAmmo := m, bulletBurstPerFire := 3, isVR := b }
        gX).bulletBurstTimer = none) := by
  have hmaxa : max 0 a = a := by omega
  have hane : ¬ (a = 0) := by omega
  have hcan1 : ¬ (L < a) := by omega
  have hclamp1 : max 0 (min (max 0 c) (L - a)) = L - a := by omega
  have hne1 : ¬ (L = L - a) := by omega
  have hc2 : ¬ (L - a < a) := by omega
  have htn1 : (max 10 (1000 : Int)).toNat = 1000 := by omega
  have htn2 : ((100 : Int)).toNat = 100 := by omega
  have hmax12 : max (1 : Int) 2 = 2 := by omega
  have hmax12a : max (1 : Int) ((3 : Int) - 1) = 2 := by omega
  have hcancel :
      (burstTick { ammoPerFire := a, clipSize := c, maxAmmo := m, bulletBurstPerFire := 3, isVR := b }
          gX).loadedAmmo = gX.loadedAmmo ∧
      (burstTick { ammoPerFire := a, clipSize := c, maxAmmo := m, bulletBurstPerFire := 3, isVR := b }
          gX).shotsFired = gX.shotsFired ∧
      (burstTick { ammoPerFire := a, clipSize := c, maxAmmo := m, bulletBurstPerFire := 3, isVR := b }
          gX).bulletBurstTimer = none := by
    have hlt : gX.loadedAmmo < max 0 a := by omega
    simp [burstTick, hgX2, triggerAttack, canAttack, hlt, hgX1, hane, hmaxa,
      resetBurst, resetAutoAttack]
  refine ⟨?_, hcancel⟩
  cases b
  · -- non-VR: the first shot goes through the 50 ms wind-up delay
    have eInit : triggerAttack
        { ammoPerFire := a, clipSize := c, maxAmmo := m, bulletBurstPerFire := 3, isVR := false }
        { loadedAmmo := L, reserveAmmo := R }
        = { loadedAmmo := L - a, reserveAmmo := R, attackCooldown := true,
            fireDelay := some 50,
            events := [GunEvent.loadedAmmoChanged (L - a) L] } := by
      simp [triggerAttack, canAttack, hmaxa, hane, hcan1, ha, setLoadedAmmo, hclamp1, hne1]
    have eF : step
        { ammoPerFire := a, clipSize := c, maxAmmo := m, bulletBurstPerFire := 3, isVR := false }
        { loadedAmmo := L - a, reserveAmmo := R, attackCooldown := true,
          fireDelay := some 50,
          events := [GunEvent.loadedAmmoChanged (L - a) L] }
        = { loadedAmmo := L - a, reserveAmmo := R, attackCooldown := true,
            attackCooldownTimer := some (50 + 1000), bulletBurstTimer := some (50 + 100),
            currentBurstCount := 2, now := 50, shotsFired := 1, shotTimes := [50],
            events := [GunEvent.loadedAmmoChanged (L - a) L] } := by
      simp [step, nextDeadline, optMin, finishFiring, hc2, triggerBurst, triggerAutoAttack,
        resetBurst, resetAutoAttack, htn1, htn2, hmax12, hmax12a]
    obtain ⟨f1, f2, f3, f4, f5, f6⟩ :=
      burst_phase
        { ammoPerFire := a, clipSize := c, maxAmmo := m, bulletBurstPerFire := 3, isVR := false }
        a L c m R false 50 [GunEvent.loadedAmmoChanged (L - a) L]
        { loadedAmmo := L - a, reserveAmmo := R, attackCooldown := true,
          attackCooldownTimer := some (50 + 1000), bulletBurstTimer := some (50 + 100),
          currentBurstCount := 2, now := 50, shotsFired := 1, shotTimes := [50],
          events := [GunEvent.loadedAmmoChanged (L - a) L] }
        ha hL hc rfl rfl
    have h6 : run
        { ammoPerFire := a, clipSize := c, maxAmmo := m, bulletBurstPerFire := 3, isVR := false }
        { loadedAmmo := L - a, reserveAmmo := R, attackCooldown := true,
          fireDelay := some 50,
          events := [GunEvent.loadedAmmoChanged (L - a) L] } 6
        = run
        { ammoPerFire := a, clipSize := c, maxAmmo := m, bulletBurstPerFire := 3, isVR := false }
        (step
          { ammoPerFire := a, clipSize := c, maxAmmo := m, bulletBurstPerFire := 3, isVR := false }
          { loadedAmmo := L - a, reserveAmmo := R, attackCooldown := true,
            fireDelay := some 50,
            events := [GunEvent.loadedAmmoChanged (L - a) L] }) 5 :=
      run_succ_shift _ _ 5
    rw [eInit, h6, eF]
    refine ⟨f1, f2, f3, ?_, f5⟩
    rw [f4]
    norm_num
  · -- VR: the first shot fires immediately
    have eInit : triggerAttack
        { ammoPerFire := a, clipSize := c, maxAmmo := m, bulletBurstPerFire := 3, isVR := true }
        { loadedAmmo := L, reserveAmmo := R }
        = { loadedAmmo := L - a, reserveAmmo := R, attackCooldown := true,
            attackCooldownTimer := some (0 + 1000), bulletBurstTimer := some (0 + 100),
            currentBurstCount := 2, now := 0, shotsFired := 1, shotTimes := [0],
            events := [GunEvent.loadedAmmoChanged (L - a) L] } := by
      simp [triggerAttack, canAttack, hmaxa, hane, hcan1, ha, setLoadedAmmo, hclamp1, hne1,
        finishFiring, hc2, triggerBurst, triggerAutoAttack, resetBurst, resetAutoAttack,
        htn1, htn2, hmax12, hmax12a]
    obtain ⟨f1, f2, f3, f4, f5, f6⟩ :=
      burst_phase
        { ammoPerFire := a, clipSize := c, maxAmmo := m, bulletBurstPerFire := 3, isVR := true }
        a L c m R true 0 [GunEvent.loadedAmmoChanged (L - a) L]
        { loadedAmmo := L - a, reserveAmmo := R, attackCooldown := true,
          attackCooldownTimer := some (0 + 1000), bulletBurstTimer := some (0 + 100),
          currentBurstCount := 2, now := 0, shotsFired := 1, shotTimes := [0],
          events := [GunEvent.loadedAmmoChanged (L - a) L] }
        ha hL hc rfl rfl
    have h6 : run
        { ammoPerFire := a, clipSize := c, maxAmmo := m, bulletBurstPerFire := 3, isVR := true }
        { loadedAmmo := L - a, reserveAmmo := R, attackCooldown := true,
          attackCooldownTimer := some (0 + 1000), bulletBurstTimer := some (0 + 100),
          currentBurstCount := 2, now := 0, shotsFired := 1, shotTimes := [0],
          events := [GunEvent.loadedAmmoChanged (L - a) L] } 6
        = run
        { ammoPerFire := a, clipSize := c, maxAmmo := m, bulletBurstPerFire := 3, isVR := true }
        { loadedAmmo := L - a, reserveAmmo := R, attackCooldown := true,
          attackCooldownTimer := some (0 + 1000), bulletBurstTimer := some (0 + 100),
          currentBurstCount := 2, now := 0, shotsFired := 1, shotTimes := [0],
          events := [GunEvent.loadedAmmoChanged (L - a) L] } 5 := by
      show step _ (run _ _ 5) = _
      rw [f6]
    rw [eInit, h6]
    refine ⟨f1, f2, f3, ?_, f5⟩
    rw [f4]
    norm_num

/-- Witness for `C6_burst_of_three`: `ammoPerFire = 1`, `loadedAmmo = 3`,
`clipSize = 10`, `maxAmmo = 30`, `reserveAmmo = 20`, VR device; cancellation
state with empty clip mid-burst (`currentBurstCount = 2`). -/
theorem C6_burst_of_three_witness :
    ((0 : Int) < 1 ∧ 3 * 1 ≤ (3 : Int) ∧ (3 : Int) ≤ 10 ∧
     Gun.loadedAmmo { currentBurstCount := 2 } < 1 ∧
     ¬ (Gun.currentBurstCount { currentBurstCount := 2 } = 0)) ∧
    (((run { ammoPerFire := 1, clipSize := 10, maxAmmo := 30, bulletBurstPerFire := 3, isVR := true }
        (triggerAttack
          { ammoPerFire := 1, clipSize := 10, maxAmmo := 30, bulletBurstPerFire := 3, isVR := true }
          { loadedAmmo := 3, reserveAmmo := 20 }) 6).shotsFired = 3 ∧
     (run { ammoPerFire := 1, clipSize := 10, maxAmmo := 30, bulletBurstPerFire := 3, isVR := true }
        (triggerAttack
          { ammoPerFire := 1, clipSize := 10, maxAmmo := 30, bulletBurstPerFire := 3, isVR := true }
          { loadedAmmo := 3, reserveAmmo := 20 }) 6).loadedAmmo = 3 - 3 * 1 ∧
     (run { ammoPerFire := 1, clipSize := 10, maxAmmo := 30, bulletBurstPerFire := 3, isVR := true }
        (triggerAttack
          { ammoPerFire := 1, clipSize := 10, maxAmmo := 30, bulletBurstPerFire := 3, isVR := true }
          { loadedAmmo := 3, reserveAmmo := 20 }) 6).reserveAmmo = 20 ∧
     (run { ammoPerFire := 1, clipSize := 10, maxAmmo := 30, bulletBurstPerFire := 3, isVR := true }
        (triggerAttack
          { ammoPerFire := 1, clipSize := 10, maxAmmo := 30, bulletBurstPerFire := 3, isVR := true }
          { loadedAmmo := 3, reserveAmmo := 20 }) 6).shotTimes
       = (if true then [0, 100, 200] else [50, 150, 250]) ∧
     nextDeadline
       (run { ammoPerFire := 1, clipSize := 10, maxAmmo := 30, bulletBurstPerFire := 3, isVR := true }
        (triggerAttack
          { ammoPerFire := 1, clipSize := 10, maxAmmo := 30, bulletBurstPerFire := 3, isVR := true }
          { loadedAmmo := 3, reserveAmmo := 20 }) 6) = none) ∧
    ((burstTick { ammoPerFire := 1, clipSize := 10, maxAmmo := 30, bulletBurstPerFire := 3, isVR := true }
        { currentBurstCount := 2 }).loadedAmmo = Gun.loadedAmmo { currentBurstCount := 2 } ∧
     (burstTick { ammoPerFire := 1, clipSize := 10, maxAmmo := 30, bulletBurstPerFire := 3, isVR := true }
        { currentBurstCount := 2 }).shotsFired = Gun.shotsFired { currentBurstCount := 2 } ∧
     (burstTick { ammoPerFire := 1, clipSize := 10, maxAmmo := 30, bulletBurstPerFire := 3, isVR := true }
        { currentBurstCount := 2 }).bulletBurstTimer = none)) :=
  ⟨by decide,
   C6_burst_of_three 1 3 10 30 20 true { currentBurstCount := 2 }
     (by decide) (by decide) (by decide) (by decide) (by decide)⟩
